import Mathlib

/-!
Verification of the declaration module
`XR_APILAYER_NOVENDOR_OBSMirror/framework/layer_apis.py`, which supplies the
three build-time sets parameterizing the OpenXR mirror layer: the entry
points the layer overrides, the entry points it resolves for its own use,
and the extensions it touches.
-/

namespace LayerApisDecl

/-- The list of OpenXR functions the layer will override
(`override_functions` in `layer_apis.py`). -/
def override_functions : List String := [
    "xrCreateSession",
    "xrCreateSwapchain",
    "xrDestroySwapchain",
    "xrEnumerateSwapchainImages",
    "xrAcquireSwapchainImage",
    "xrReleaseSwapchainImage",
    "xrLocateViews",
    "xrBeginFrame",
    "xrEndFrame",
    "xrCreateReferenceSpace"
]

/-- The list of OpenXR functions the layer will use from the runtime
(`requested_functions` in `layer_apis.py`). -/
def requested_functions : List String := [
    "xrGetInstanceProperties",
    "xrGetSystemProperties",
    "xrGetSystem",
    "xrEnumerateViewConfigurationViews"
]

/-- The list of OpenXR extensions the layer will either override or use
(`extensions` in `layer_apis.py`). -/
def extensions : List String := []

/-- The bundle of the three declaration sets exposed by the module
`layer_apis`, as consumed by the code-generation step. -/
structure LayerApis where
  override_functions : List String
  requested_functions : List String
  extensions : List String
  deriving DecidableEq

/-- The declaration module itself: it supplies exactly the three sets
`override_functions`, `requested_functions` and `extensions`. -/
def layer_apis : LayerApis :=
  { override_functions := override_functions,
    requested_functions := requested_functions,
    extensions := extensions }

/-- Modelled from the spec: the session entry points among the overridden
calls — calls that create session-scoped state (the session itself, and
reference spaces created against a session). The categorization is the
spec's, not the source's: the source is a bare name list. -/
def sessionEntryPoints : List String :=
  ["xrCreateSession", "xrCreateReferenceSpace"]

/-- Modelled from the spec: the swapchain entry points among the overridden
calls (swapchain lifecycle and image acquire/release). -/
def swapchainEntryPoints : List String :=
  ["xrCreateSwapchain", "xrDestroySwapchain", "xrEnumerateSwapchainImages",
   "xrAcquireSwapchainImage", "xrReleaseSwapchainImage"]

/-- Modelled from the spec: the view-location entry points among the
overridden calls. -/
def viewLocationEntryPoints : List String := ["xrLocateViews"]

/-- Modelled from the spec: the frame-boundary entry points among the
overridden calls. -/
def frameBoundaryEntryPoints : List String := ["xrBeginFrame", "xrEndFrame"]

/-- Claim C1: every function name in `override_functions` is a session,
swapchain, view-location, or frame-boundary entry point. -/
theorem override_functions_categorized :
    ∀ f ∈ override_functions,
      f ∈ sessionEntryPoints ∨ f ∈ swapchainEntryPoints ∨
      f ∈ viewLocationEntryPoints ∨ f ∈ frameBoundaryEntryPoints := by
  decide

/-- Witness for C1: `xrCreateSwapchain` is overridden and falls in one of the
four categories. -/
theorem override_functions_categorized_witness :
    "xrCreateSwapchain" ∈ sessionEntryPoints ∨
    "xrCreateSwapchain" ∈ swapchainEntryPoints ∨
    "xrCreateSwapchain" ∈ viewLocationEntryPoints ∨
    "xrCreateSwapchain" ∈ frameBoundaryEntryPoints :=
  override_functions_categorized "xrCreateSwapchain" (by decide)

/-- Claim C2: the declared scope has exactly 10 overridden entry points,
exactly 4 requested entry points, and no extensions. -/
theorem declared_scope_sizes :
    override_functions.length = 10 ∧
    requested_functions.length = 4 ∧
    extensions = [] := by
  decide

/-- Claim C3: `requested_functions` is exactly the four names
`xrGetInstanceProperties`, `xrGetSystemProperties`, `xrGetSystem` and
`xrEnumerateViewConfigurationViews`, and none of these four names appears in
`override_functions`. -/
theorem requested_functions_exact_and_not_overridden :
    requested_functions =
      ["xrGetInstanceProperties", "xrGetSystemProperties", "xrGetSystem",
       "xrEnumerateViewConfigurationViews"] ∧
    ∀ f ∈ requested_functions, f ∉ override_functions := by
  decide

/-- Claim C4: all five swapchain-lifecycle entry points named by the
Swapchain Image Tracker design are members of `override_functions`. -/
theorem swapchain_lifecycle_overridden :
    "xrCreateSwapchain" ∈ override_functions ∧
    "xrDestroySwapchain" ∈ override_functions ∧
    "xrEnumerateSwapchainImages" ∈ override_functions ∧
    "xrAcquireSwapchainImage" ∈ override_functions ∧
    "xrReleaseSwapchainImage" ∈ override_functions := by
  decide

/-- Claim C5: the three Frame Mirror Pipeline entry points `xrBeginFrame`,
`xrLocateViews` and `xrEndFrame` are members of `override_functions`. -/
theorem frame_pipeline_overridden :
    "xrBeginFrame" ∈ override_functions ∧
    "xrLocateViews" ∈ override_functions ∧
    "xrEndFrame" ∈ override_functions := by
  decide

/-- Claim C6: both `xrCreateSession` and `xrCreateReferenceSpace` are
members of `override_functions`. -/
theorem session_and_refspace_overridden :
    "xrCreateSession" ∈ override_functions ∧
    "xrCreateReferenceSpace" ∈ override_functions := by
  decide

/-- Claim C7: the name `xrDestroySession` appears neither in
`override_functions` nor in `requested_functions`. -/
theorem no_session_destruction_override :
    "xrDestroySession" ∉ override_functions ∧
    "xrDestroySession" ∉ requested_functions := by
  decide

/-- Claim C8: the declaration module supplies exactly the three sets
`override_functions`, `requested_functions` and `extensions`, each a list of
name strings, with `extensions` currently empty. -/
theorem layer_apis_three_sets :
    layer_apis =
      { override_functions := override_functions,
        requested_functions := requested_functions,
        extensions := extensions } ∧
    layer_apis.extensions = [] := by
  decide

/-- Claim C9: each name appears exactly once in `override_functions`, each
name appears exactly once in `requested_functions`, and the two lists are
disjoint. -/
theorem declaration_lists_nodup_disjoint :
    override_functions.Nodup ∧
    requested_functions.Nodup ∧
    ∀ f ∈ override_functions, f ∉ requested_functions := by
  decide

/-- Claim C10: the frame-boundary entry point `xrWaitFrame` is in neither
`override_functions` nor `requested_functions`. -/
theorem xrWaitFrame_untouched :
    "xrWaitFrame" ∉ override_functions ∧
    "xrWaitFrame" ∉ requested_functions := by
  decide

end LayerApisDecl
